import Mathlib

/-!
Shallow embedding of the FastAPI tutorial application in `app/main.py`:
a route table (in registration order), path/query/body parameter
validation, and the echo-style handlers.  Machine floats in the source
appear only as decimal literals and one addition, so they are modelled
as rationals.  The framework-level routing and validation semantics
(first-match dispatch, eager aggregated validation, 422 on failure)
are modelled from the specification of the framework behaviour that the
declarations in `app/main.py` configure; the handler bodies, the route
registration order, the parameter declarations and their constraints
are translated directly from `app/main.py`.
-/

namespace FastApiTut

/-- Primitive JSON values appearing in this application
(strings, ints, floats-as-rationals, booleans, null). -/
inductive Prim where
  | null : Prim
  | s (v : String) : Prim
  | i (v : Int) : Prim
  | f (v : Rat) : Prim
  | b (v : Bool) : Prim
  deriving DecidableEq, Repr

/-- A flat JSON object whose values are primitives (e.g. a serialized
pydantic model, or an element of `fake_items_db`). -/
abbrev JObj := List (String × Prim)

/-- JSON values one level deep: exactly the shapes produced and consumed
by the handlers in `app/main.py`. -/
inductive JValue where
  | prim (p : Prim) : JValue
  | obj (o : JObj) : JValue
  | arr (xs : List JObj) : JValue
  | strs (xs : List String) : JValue
  deriving DecidableEq, Repr

/-- One entry of a 422 validation-error detail list: error location
(e.g. `["path", "item_id"]`) and message. -/
structure FieldError where
  loc : List String
  msg : String
  deriving DecidableEq, Repr

/-- An HTTP response of the application: a JSON object (200), a JSON
array (200, for `GET /items/`), a 422 validation error with its
aggregated detail list, or a 404. -/
inductive Response where
  | ok (body : List (String × JValue)) : Response
  | okList (body : List JObj) : Response
  | validationError (errors : List FieldError) : Response
  | notFound : Response
  deriving DecidableEq, Repr

/-- An HTTP request: method, path split into its segments (a trailing
slash yields a final empty segment), query-string pairs in order, and
an optional JSON-object body. -/
structure Request where
  method : String
  path : List String
  query : List (String × String) := []
  body : Option (List (String × JValue)) := none

/-- Mutable application state: just `fake_items_db` from `app/main.py`. -/
structure AppState where
  fake_items_db : List JObj
  deriving DecidableEq, Repr

/-- `fake_items_db = [{"item_name": "Foo1"}, {"item_name": "Bar2"},
{"item_name": "Baz3"}, {"item_name": "Hay4"}]` (`app/main.py` line 22). -/
def initState : AppState :=
  ⟨[[("item_name", Prim.s "Foo1")], [("item_name", Prim.s "Bar2")],
    [("item_name", Prim.s "Baz3")], [("item_name", Prim.s "Hay4")]]⟩

/-! ## Python-style coercions (pydantic v1 scalar parsing) -/

/-- Value of a nonempty all-digit character sequence. -/
def digitsVal (cs : List Char) : Nat :=
  cs.foldl (fun a c => a * 10 + (c.toNat - 48)) 0

/-- All characters are decimal digits. -/
def allDigits (cs : List Char) : Bool :=
  cs.all Char.isDigit

/-- Unsigned decimal integer reading. -/
def readDigits (cs : List Char) : Option Nat :=
  if cs ≠ [] ∧ allDigits cs then some (digitsVal cs) else none

/-- Python `int(str)` coercion as used by pydantic: optional sign then
one or more digits. -/
def pyInt (s : String) : Option Int :=
  match s.data with
  | '-' :: r => (readDigits r).map (fun n => -(n : Int))
  | '+' :: r => (readDigits r).map (fun n => (n : Int))
  | r => (readDigits r).map (fun n => (n : Int))

/-- Unsigned decimal reading with an optional fractional part. -/
def readDecimal (cs : List Char) : Option Rat :=
  match cs.splitOn '.' with
  | [ip] => if ip ≠ [] ∧ allDigits ip then some ((digitsVal ip : Rat)) else none
  | [ip, fp] =>
      if (ip ≠ [] ∨ fp ≠ []) ∧ allDigits ip ∧ allDigits fp then
        some ((digitsVal ip : Rat) + (digitsVal fp : Rat) / (10 : Rat) ^ fp.length)
      else none
  | _ => none

/-- Python `float(str)` coercion restricted to plain decimal notation
(optional sign, digits, optional fractional part), which covers every
float literal this application receives. -/
def pyFloat (s : String) : Option Rat :=
  match s.data with
  | '-' :: r => (readDecimal r).map (fun x => -x)
  | '+' :: r => readDecimal r
  | r => readDecimal r

/-- ASCII lowercasing of one character. -/
def lowerChar (c : Char) : Char :=
  if 65 ≤ c.toNat ∧ c.toNat ≤ 90 then Char.ofNat (c.toNat + 32) else c

/-- ASCII lowercasing of a string. -/
def lowerStr (s : String) : String :=
  String.mk (s.data.map lowerChar)

/-- pydantic v1 bool coercion from a query string. -/
def pyBool (s : String) : Option Bool :=
  let t := lowerStr s
  if t = "1" ∨ t = "on" ∨ t = "t" ∨ t = "true" ∨ t = "y" ∨ t = "yes" then some true
  else if t = "0" ∨ t = "off" ∨ t = "f" ∨ t = "false" ∨ t = "n" ∨ t = "no" then some false
  else none

/-! ## Query-string access -/

/-- All values bound to a query key, in order. -/
def qAll (name : String) (q : List (String × String)) : List String :=
  (q.filter (fun p => p.1 = name)).map Prod.snd

/-- Scalar query lookup (the last occurrence wins, as in the framework
multidict). -/
def qGet (name : String) (q : List (String × String)) : Option String :=
  (qAll name q).getLast?

/-! ## Validation primitives -/

/-- Outcome of validating one declared parameter: a typed value or the
field errors it contributes to the aggregated 422 detail. -/
abbrev V (α : Type) := Except (List FieldError) α

/-- Errors contributed by one field (empty when it validated). -/
def errsOf {α : Type} : V α → List FieldError
  | Except.ok _ => []
  | Except.error e => e

/-- Validate an `int` path parameter from its matched raw segment. -/
def vPathInt (name : String) (pp : List (String × String)) : V Int :=
  match pyInt (((pp.lookup name).getD "")) with
  | some n => Except.ok n
  | none => Except.error [⟨["path", name], "value is not a valid integer"⟩]

/-- Enforce `ge`/`le` numeric constraints on an integer parameter (each
bound carries the literal spelling used in its error message). -/
def vIntRange (loc : List String) (geB leB : Option (Int × String)) (n : Int) : V Int :=
  match geB with
  | some g =>
    if n < g.1 then
      Except.error [⟨loc, "ensure this value is greater than or equal to " ++ g.2⟩]
    else
      match leB with
      | some l =>
        if l.1 < n then
          Except.error [⟨loc, "ensure this value is less than or equal to " ++ l.2⟩]
        else Except.ok n
      | none => Except.ok n
  | none =>
    match leB with
    | some l =>
      if l.1 < n then
        Except.error [⟨loc, "ensure this value is less than or equal to " ++ l.2⟩]
      else Except.ok n
    | none => Except.ok n

/-- A required string query parameter (`q: str` / `Query(...)`). -/
def vReqStr (name : String) (q : List (String × String)) : V String :=
  match qGet name q with
  | some v => Except.ok v
  | none => Except.error [⟨["query", name], "field required"⟩]

/-- Enforce `min_length` on a present string value. -/
def vMinLen (loc : List String) (m : Nat) (s : String) : V String :=
  if s.length < m then
    Except.error [⟨loc, "ensure this value has at least " ++ toString m ++ " characters"⟩]
  else Except.ok s

/-- Enforce `max_length` on a present string value. -/
def vMaxLen (loc : List String) (m : Nat) (s : String) : V String :=
  if m < s.length then
    Except.error [⟨loc, "ensure this value has at most " ++ toString m ++ " characters"⟩]
  else Except.ok s

/-- Enforce the anchored pattern `^fixedquery$`. -/
def vFixedquery (loc : List String) (s : String) : V String :=
  if s = "fixedquery" then Except.ok s
  else Except.error [⟨loc, "string does not match regex"⟩]

/-- An optional string query parameter, applying `k` when present. -/
def vOptStrWith (name : String) (q : List (String × String))
    (k : String → V String) : V (Option String) :=
  match qGet name q with
  | some v => (k v).map some
  | none => Except.ok none

/-- An optional string query parameter without constraints. -/
def vOptStr (name : String) (q : List (String × String)) : V (Option String) :=
  Except.ok (qGet name q)

/-- An `int` query parameter with a default value. -/
def vIntDefault (name : String) (q : List (String × String)) (d : Int) : V Int :=
  match qGet name q with
  | none => Except.ok d
  | some s =>
    match pyInt s with
    | some n => Except.ok n
    | none => Except.error [⟨["query", name], "value is not a valid integer"⟩]

/-- A `bool` query parameter with a default value. -/
def vBoolDefault (name : String) (q : List (String × String)) (d : Bool) : V Bool :=
  match qGet name q with
  | none => Except.ok d
  | some s =>
    match pyBool s with
    | some b => Except.ok b
    | none => Except.error [⟨["query", name], "value could not be parsed to a boolean"⟩]

/-- A required `float` query parameter. -/
def vReqFloat (name : String) (q : List (String × String)) : V Rat :=
  match qGet name q with
  | none => Except.error [⟨["query", name], "field required"⟩]
  | some s =>
    match pyFloat s with
    | some x => Except.ok x
    | none => Except.error [⟨["query", name], "value is not a valid float"⟩]

/-- Enforce rational `ge`/`le` bounds (messages carry the literal
spelling of the bound from the declaration). -/
def vRatRange (loc : List String) (g : Rat) (gTxt : String) (l : Rat) (lTxt : String)
    (x : Rat) : V Rat :=
  if x < g then
    Except.error [⟨loc, "ensure this value is greater than or equal to " ++ gTxt⟩]
  else if l < x then
    Except.error [⟨loc, "ensure this value is less than or equal to " ++ lTxt⟩]
  else Except.ok x

/-! ## Request-body entities (`app/main.py` lines 7-11, 232-236, 255-257) -/

/-- `Item` / `BodyItem`: name, optional description, price, optional tax
(the two pydantic classes declare identical fields). -/
structure BodyItem where
  name : String
  description : Option String
  price : Rat
  tax : Option Rat
  deriving DecidableEq, Repr

/-- `BodyUser`: username and optional full name. -/
structure BodyUser where
  username : String
  full_name : Option String
  deriving DecidableEq, Repr

/-- Serialize an optional string field (absent becomes JSON null). -/
def optS : Option String → Prim
  | some v => Prim.s v
  | none => Prim.null

/-- Serialize an optional float field (absent becomes JSON null). -/
def optF : Option Rat → Prim
  | some v => Prim.f v
  | none => Prim.null

/-- `item.dict()`: serialization of a `BodyItem` with every declared
field present, absent optionals as null. -/
def BodyItem.toJObj (it : BodyItem) : JObj :=
  [("name", Prim.s it.name), ("description", optS it.description),
   ("price", Prim.f it.price), ("tax", optF it.tax)]

/-- Serialization of a `BodyUser`. -/
def BodyUser.toJObj (u : BodyUser) : JObj :=
  [("username", Prim.s u.username), ("full_name", optS u.full_name)]

/-- View a flat object as a list of JSON fields (for spreading a model
dict at the top level of a response or body). -/
def objAsTop (o : JObj) : List (String × JValue) :=
  o.map (fun p => (p.1, JValue.prim p.2))

/-- Validate a required string body field. -/
def vFieldStr (loc : List String) (name : String)
    (fields : List (String × JValue)) : V String :=
  match fields.lookup name with
  | some (JValue.prim (Prim.s v)) => Except.ok v
  | some (JValue.prim Prim.null) =>
      Except.error [⟨loc ++ [name], "none is not an allowed value"⟩]
  | some _ => Except.error [⟨loc ++ [name], "str type expected"⟩]
  | none => Except.error [⟨loc ++ [name], "field required"⟩]

/-- Validate an optional string body field (absent or null is `None`). -/
def vFieldOptStr (loc : List String) (name : String)
    (fields : List (String × JValue)) : V (Option String) :=
  match fields.lookup name with
  | some (JValue.prim (Prim.s v)) => Except.ok (some v)
  | some (JValue.prim Prim.null) => Except.ok none
  | some _ => Except.error [⟨loc ++ [name], "str type expected"⟩]
  | none => Except.ok none

/-- Coerce one JSON value to a float the way pydantic v1 does
(numbers, numeric strings, and booleans are accepted). -/
def primToFloat : Prim → Option Rat
  | Prim.i n => some (n : Rat)
  | Prim.f x => some x
  | Prim.s v => pyFloat v
  | Prim.b bv => some (if bv then 1 else 0)
  | Prim.null => none

/-- Validate a required float body field. -/
def vFieldFloat (loc : List String) (name : String)
    (fields : List (String × JValue)) : V Rat :=
  match fields.lookup name with
  | some (JValue.prim p) =>
    match primToFloat p with
    | some x => Except.ok x
    | none => Except.error [⟨loc ++ [name], "value is not a valid float"⟩]
  | some _ => Except.error [⟨loc ++ [name], "value is not a valid float"⟩]
  | none => Except.error [⟨loc ++ [name], "field required"⟩]

/-- Validate an optional float body field. -/
def vFieldOptFloat (loc : List String) (name : String)
    (fields : List (String × JValue)) : V (Option Rat) :=
  match fields.lookup name with
  | some (JValue.prim Prim.null) => Except.ok none
  | some (JValue.prim p) =>
    match primToFloat p with
    | some x => Except.ok (some x)
    | none => Except.error [⟨loc ++ [name], "value is not a valid float"⟩]
  | some _ => Except.error [⟨loc ++ [name], "value is not a valid float"⟩]
  | none => Except.ok none

/-- Validate the fields of a `BodyItem` (errors from every failing field
are aggregated, in declaration order). -/
def vBodyItemFields (loc : List String)
    (fields : List (String × JValue)) : V BodyItem :=
  let en := vFieldStr loc "name" fields
  let ed := vFieldOptStr loc "description" fields
  let ep := vFieldFloat loc "price" fields
  let et := vFieldOptFloat loc "tax" fields
  match en, ed, ep, et with
  | Except.ok n, Except.ok d, Except.ok p, Except.ok t => Except.ok ⟨n, d, p, t⟩
  | _, _, _, _ => Except.error (errsOf en ++ errsOf ed ++ errsOf ep ++ errsOf et)

/-- Validate the fields of a `BodyUser`. -/
def vBodyUserFields (loc : List String)
    (fields : List (String × JValue)) : V BodyUser :=
  let eu := vFieldStr loc "username" fields
  let ef := vFieldOptStr loc "full_name" fields
  match eu, ef with
  | Except.ok u, Except.ok f => Except.ok ⟨u, f⟩
  | _, _ => Except.error (errsOf eu ++ errsOf ef)

/-- Validate a nested JSON value as a `BodyItem`. -/
def vBodyItemVal (loc : List String) : JValue → V BodyItem
  | JValue.obj o => vBodyItemFields loc (objAsTop o)
  | JValue.prim Prim.null => Except.error [⟨loc, "none is not an allowed value"⟩]
  | _ => Except.error [⟨loc, "value is not a valid dict"⟩]

/-- Validate a nested JSON value as a `BodyUser`. -/
def vBodyUserVal (loc : List String) : JValue → V BodyUser
  | JValue.obj o => vBodyUserFields loc (objAsTop o)
  | JValue.prim Prim.null => Except.error [⟨loc, "none is not an allowed value"⟩]
  | _ => Except.error [⟨loc, "value is not a valid dict"⟩]

/-- Validate a required body parameter nested under its name in the
body payload (multiple-body-parameter routes, and `embed=True`). -/
def vNested {α : Type} (name : String) (body : Option (List (String × JValue)))
    (k : JValue → V α) : V α :=
  match body with
  | none => Except.error [⟨["body", name], "field required"⟩]
  | some fields =>
    match fields.lookup name with
    | none => Except.error [⟨["body", name], "field required"⟩]
    | some v => k v

/-- Validate a required singular body value (`importance: int = Body(...)`). -/
def vNestedInt (name : String) (body : Option (List (String × JValue))) : V Int :=
  match body with
  | none => Except.error [⟨["body", name], "field required"⟩]
  | some fields =>
    match fields.lookup name with
    | none => Except.error [⟨["body", name], "field required"⟩]
    | some (JValue.prim (Prim.i n)) => Except.ok n
    | some (JValue.prim (Prim.s v)) =>
      match pyInt v with
      | some n => Except.ok n
      | none => Except.error [⟨["body", name], "value is not a valid integer"⟩]
    | some _ => Except.error [⟨["body", name], "value is not a valid integer"⟩]

/-- Enforce `gt` on an integer body value. -/
def vIntGt (loc : List String) (g : Int) (n : Int) : V Int :=
  if n ≤ g then
    Except.error [⟨loc, "ensure this value is greater than " ++ toString g⟩]
  else Except.ok n

/-! ## ModelName (`app/main.py` lines 14-17) -/

/-- `ModelName`: enumerated string restricted to alexnet, resnet, lenet. -/
inductive ModelName where
  | alexnet : ModelName
  | resnet : ModelName
  | lenet : ModelName
  deriving DecidableEq, Repr

/-- The string value of a `ModelName` member. -/
def ModelName.value : ModelName → String
  | ModelName.alexnet => "alexnet"
  | ModelName.resnet => "resnet"
  | ModelName.lenet => "lenet"

/-- Validate an enumerated path parameter by exact-match lookup. -/
def vModelName (pp : List (String × String)) : V ModelName :=
  let raw := (pp.lookup "model_name").getD ""
  if raw = "alexnet" then Except.ok ModelName.alexnet
  else if raw = "resnet" then Except.ok ModelName.resnet
  else if raw = "lenet" then Except.ok ModelName.lenet
  else Except.error [⟨["path", "model_name"], "value is not a valid enumeration member"⟩]

/-! ## Handlers (dictionary builders from `app/main.py`) -/

/-- The repeated `if q: results.update(q=q)` idiom: the q key is added
only when q is truthy (present and nonempty). -/
def qField (q : Option String) : List (String × JValue) :=
  match q with
  | some v => if v = "" then [] else [("q", JValue.prim (Prim.s v))]
  | none => []

/-- `hello_world` (lines 25-29). -/
def hello_world : List (String × JValue) :=
  [("message", JValue.prim (Prim.s "Hello World, E!"))]

/-- Python list slice `l[a : b]` with clamping and negative indices. -/
def pySlice (l : List JObj) (a b : Int) : List JObj :=
  let n : Int := l.length
  let lo := if a < 0 then max 0 (n + a) else min a n
  let hi := if b < 0 then max 0 (n + b) else min b n
  (l.drop lo.toNat).take (hi - lo).toNat

/-- `read_item` on `GET /items/` (lines 32-35): returns
`fake_items_db[skip : skip + limit]`. -/
def read_item_list (db : List JObj) (skip limit : Int) : List JObj :=
  pySlice db skip (skip + limit)

/-- `read_item` on `GET /items/{item_id}` (lines 38-52). -/
def read_item (item_id : String) (q : Option String) (short : Bool) :
    List (String × JValue) :=
  [("item_id", JValue.prim (Prim.s item_id))]
  ++ qField q
  ++ (if short then
        [("description", JValue.prim (Prim.s "short description"))]
      else
        [("description",
          JValue.prim (Prim.s "This is an amazing item that has a long description"))])

/-- `read_user_me` (lines 55-58). -/
def read_user_me : List (String × JValue) :=
  [("user_id", JValue.prim (Prim.s "the current user"))]

/-- `read_user` (lines 61-64). -/
def read_user (user_id : String) : List (String × JValue) :=
  [("user_id", JValue.prim (Prim.s user_id))]

/-- `get_model` (lines 67-76). -/
def get_model (model_name : ModelName) : List (String × JValue) :=
  if model_name = ModelName.alexnet then
    [("model_name", JValue.prim (Prim.s model_name.value)),
     ("message", JValue.prim (Prim.s "Deep Learning FTW!"))]
  else if model_name.value = "lenet" then
    [("model_name", JValue.prim (Prim.s model_name.value)),
     ("message", JValue.prim (Prim.s "LeCNN all the images"))]
  else
    [("model_name", JValue.prim (Prim.s model_name.value)),
     ("message", JValue.prim (Prim.s "Have some residuals"))]

/-- `read_file` (lines 79-82). -/
def read_file (file_path : String) : List (String × JValue) :=
  [("file_path", JValue.prim (Prim.s file_path))]

/-- `read_user_item` (lines 85-95): no else-branch, so a short request
carries no description at all. -/
def read_user_item (user_id : Int) (item_id : String) (q : Option String)
    (short : Bool) : List (String × JValue) :=
  [("item_id", JValue.prim (Prim.s item_id)), ("owner_id", JValue.prim (Prim.i user_id))]
  ++ qField q
  ++ (if short then []
      else
        [("description",
          JValue.prim (Prim.s "This is an amazing item that has a long description"))])

/-- `create_item` on `POST /items/` (lines 98-105): echoes `item.dict()`
and, when tax is truthy, adds the computed `price_with_tax`. -/
def create_item (item : BodyItem) : List (String × JValue) :=
  objAsTop item.toJObj
  ++ (match item.tax with
      | some t =>
        if t = 0 then []
        else [("price_with_tax", JValue.prim (Prim.f (item.price + t)))]
      | none => [])

/-- `create_item` on `PUT /items/{item_id}` (lines 108-114). -/
def create_item_put (item_id : Int) (item : BodyItem) (q : Option String) :
    List (String × JValue) :=
  [("item_id", JValue.prim (Prim.i item_id))] ++ objAsTop item.toJObj ++ qField q

/-- The fixed two-element items list returned by `/itemsv2/`, `/itemsv5/`,
`/itemsv6/` and `/itemsv7/`. -/
def fixedResults : List (String × JValue) :=
  [("items", JValue.arr [[("item_id", Prim.s "Foo")], [("item_id", Prim.s "Bar")]])]

/-- `read_items` on `/itemsv2/`, `/itemsv5/`, `/itemsv6/`, `/itemsv7/`
(identical bodies). -/
def read_items_fixed (q : Option String) : List (String × JValue) :=
  fixedResults ++ qField q

/-- `read_items` on `GET /itemsv3/` (lines 134-137). -/
def read_items_v3 (q : Option (List String)) : List (String × JValue) :=
  [("q", match q with
         | some xs => JValue.strs xs
         | none => JValue.prim Prim.null)]

/-- `read_items` on `GET /itemsv4/` (lines 141-144). -/
def read_items_v4 (q : List String) : List (String × JValue) :=
  [("q", JValue.strs q)]

/-- `read_items` on `GET /path_items/{item_id}` and
`GET /path_items_v1/{item_id}` (identical bodies). -/
def read_items_path (item_id : Int) (q : Option String) : List (String × JValue) :=
  [("item_id", JValue.prim (Prim.i item_id))] ++ qField q

/-- `read_items` on `GET /path_items_v2/{item_id}` (lines 217-227). -/
def read_items_path_v2 (item_id : Int) (q : String) (size : Rat) :
    List (String × JValue) :=
  [("item_id", JValue.prim (Prim.i item_id)), ("size", JValue.prim (Prim.f size))]
  ++ qField (some q)

/-- `update_item` on `PUT /body_items/{item_id}` (lines 239-251): the
item key is added only when the optional body was given (a model
instance is always truthy). -/
def update_item (item_id : Int) (q : Option String) (item : Option BodyItem) :
    List (String × JValue) :=
  [("item_id", JValue.prim (Prim.i item_id))]
  ++ qField q
  ++ (match item with
      | some it => [("item", JValue.obj it.toJObj)]
      | none => [])

/-- `update_item` on `PUT /body_items_v1/{item_id}` (lines 260-263). -/
def update_item_v1 (item_id : Int) (item : BodyItem) (user : BodyUser) :
    List (String × JValue) :=
  [("item_id", JValue.prim (Prim.i item_id)), ("item", JValue.obj item.toJObj),
   ("user", JValue.obj user.toJObj)]

/-- `update_item` on `PUT /body_items_v2/{item_id}` (lines 267-272). -/
def update_item_v2 (item_id : Int) (item : BodyItem) (user : BodyUser)
    (importance : Int) : List (String × JValue) :=
  [("item_id", JValue.prim (Prim.i item_id)), ("item", JValue.obj item.toJObj),
   ("user", JValue.obj user.toJObj), ("importance", JValue.prim (Prim.i importance))]

/-- `update_item` on `PUT /body_items_v3/{item_id}` (lines 276-288). -/
def update_item_v3 (item_id : Int) (item : BodyItem) (user : BodyUser)
    (importance : Int) (q : Option String) : List (String × JValue) :=
  update_item_v2 item_id item user importance ++ qField q

/-- `update_item` on `PUT /body_items_v4/{item_id}` (lines 292-295). -/
def update_item_v4 (item_id : Int) (item : BodyItem) : List (String × JValue) :=
  [("item_id", JValue.prim (Prim.i item_id)), ("item", JValue.obj item.toJObj)]

/-! ## Route actions: eager validation of every declared parameter, then
the handler; on any failure the handler is not invoked and the
aggregated field errors become a 422. Every action returns the
(unchanged) application state alongside its response. -/

/-- Action type: state, matched path parameters, request. -/
abbrev Action := AppState → List (String × String) → Request → Response × AppState

/-- `GET /` and `GET /hello_world`. -/
def actHello : Action := fun st _ _ => (Response.ok hello_world, st)

/-- `GET /items/`. -/
def actItemsList : Action := fun st _ req =>
  let es := vIntDefault "skip" req.query 0
  let el := vIntDefault "limit" req.query 10
  (match es, el with
   | Except.ok s, Except.ok l => Response.okList (read_item_list st.fake_items_db s l)
   | _, _ => Response.validationError (errsOf es ++ errsOf el), st)

/-- `GET /items/{item_id}`. -/
def actReadItem : Action := fun st pp req =>
  let item_id := (pp.lookup "item_id").getD ""
  let eq := vOptStr "q" req.query
  let esh := vBoolDefault "short" req.query false
  (match eq, esh with
   | Except.ok q, Except.ok sh => Response.ok (read_item item_id q sh)
   | _, _ => Response.validationError (errsOf eq ++ errsOf esh), st)

/-- `GET /users/me`. -/
def actUserMe : Action := fun st _ _ => (Response.ok read_user_me, st)

/-- `GET /users/{user_id}`. -/
def actUser : Action := fun st pp _ =>
  (Response.ok (read_user ((pp.lookup "user_id").getD "")), st)

/-- `GET /models/{model_name}`. -/
def actGetModel : Action := fun st pp _ =>
  (match vModelName pp with
   | Except.ok m => Response.ok (get_model m)
   | Except.error e => Response.validationError e, st)

/-- `GET /files/{file_path:path}`. -/
def actReadFile : Action := fun st pp _ =>
  (Response.ok (read_file ((pp.lookup "file_path").getD "")), st)

/-- `GET /users_multi/{user_id}/items/{item_id}`. -/
def actUserItem : Action := fun st pp req =>
  let euid := vPathInt "user_id" pp
  let item_id := (pp.lookup "item_id").getD ""
  let eq := vOptStr "q" req.query
  let esh := vBoolDefault "short" req.query false
  (match euid, eq, esh with
   | Except.ok uid, Except.ok q, Except.ok sh =>
     Response.ok (read_user_item uid item_id q sh)
   | _, _, _ => Response.validationError (errsOf euid ++ errsOf eq ++ errsOf esh), st)

/-- The single non-embedded body parameter of `POST /items/` and
`PUT /items/{item_id}`: the body payload itself is the item. -/
def vWholeBodyItem (body : Option (List (String × JValue))) : V BodyItem :=
  match body with
  | none => Except.error [⟨["body"], "field required"⟩]
  | some fields => vBodyItemFields ["body"] fields

/-- `POST /items/`. -/
def actCreateItem : Action := fun st _ req =>
  (match vWholeBodyItem req.body with
   | Except.ok it => Response.ok (create_item it)
   | Except.error e => Response.validationError e, st)

/-- `PUT /items/{item_id}`. -/
def actCreateItemPut : Action := fun st pp req =>
  let eid := vPathInt "item_id" pp
  let eit := vWholeBodyItem req.body
  let eq := vOptStr "q" req.query
  (match eid, eq, eit with
   | Except.ok n, Except.ok q, Except.ok it => Response.ok (create_item_put n it q)
   | _, _, _ => Response.validationError (errsOf eid ++ errsOf eq ++ errsOf eit), st)

/-- `GET /itemsv2/`: q is required with min_length 3 and max_length 50. -/
def actItemsV2 : Action := fun st _ req =>
  let eq : V String :=
    match qGet "q" req.query with
    | none => Except.error [⟨["query", "q"], "field required"⟩]
    | some v => (vMinLen ["query", "q"] 3 v).bind (vMaxLen ["query", "q"] 50)
  (match eq with
   | Except.ok q => Response.ok (read_items_fixed (some q))
   | Except.error e => Response.validationError e, st)

/-- `GET /itemsv3/`: q is an optional list of strings. -/
def actItemsV3 : Action := fun st _ req =>
  let vs := qAll "q" req.query
  (Response.ok (read_items_v3 (if vs.isEmpty then none else some vs)), st)

/-- `GET /itemsv4/`: q is a list of strings defaulting to foo, bar. -/
def actItemsV4 : Action := fun st _ req =>
  let vs := qAll "q" req.query
  (Response.ok (read_items_v4 (if vs.isEmpty then ["foo", "bar"] else vs)), st)

/-- `GET /itemsv5/`: q optional with min_length 3. -/
def actItemsV5 : Action := fun st _ req =>
  let eq := vOptStrWith "q" req.query (vMinLen ["query", "q"] 3)
  (match eq with
   | Except.ok q => Response.ok (read_items_fixed q)
   | Except.error e => Response.validationError e, st)

/-- `GET /itemsv6/`: q read under the alias item-query. -/
def actItemsV6 : Action := fun st _ req =>
  (Response.ok (read_items_fixed (qGet "item-query" req.query)), st)

/-- `GET /itemsv7/`: q aliased, min_length 3, max_length 50 and the
anchored pattern fixedquery (deprecated flag is metadata only). -/
def actItemsV7 : Action := fun st _ req =>
  let eq := vOptStrWith "item-query" req.query (fun v =>
    ((vMinLen ["query", "item-query"] 3 v).bind
      (vMaxLen ["query", "item-query"] 50)).bind
      (vFixedquery ["query", "item-query"]))
  (match eq with
   | Except.ok q => Response.ok (read_items_fixed q)
   | Except.error e => Response.validationError e, st)

/-- `GET /path_items/{item_id}`: item_id int, q aliased item-query. -/
def actPathItems : Action := fun st pp req =>
  let eid := vPathInt "item_id" pp
  let eq := vOptStr "item-query" req.query
  (match eid, eq with
   | Except.ok n, Except.ok q => Response.ok (read_items_path n q)
   | _, _ => Response.validationError (errsOf eid ++ errsOf eq), st)

/-- `GET /path_items_v1/{item_id}`: item_id int with ge 1 and le 1000,
q a required string. -/
def actPathItemsV1 : Action := fun st pp req =>
  let eid := (vPathInt "item_id" pp).bind
    (vIntRange ["path", "item_id"] (some (1, "1")) (some (1000, "1000")))
  let eq := vReqStr "q" req.query
  (match eid, eq with
   | Except.ok n, Except.ok q => Response.ok (read_items_path n (some q))
   | _, _ => Response.validationError (errsOf eid ++ errsOf eq), st)

/-- `GET /path_items_v2/{item_id}`: item_id int with ge 0 and le 1000,
q a required string, size a required float with ge 1.1 and le 10.5. -/
def actPathItemsV2 : Action := fun st pp req =>
  let eid := (vPathInt "item_id" pp).bind
    (vIntRange ["path", "item_id"] (some (0, "0")) (some (1000, "1000")))
  let eq := vReqStr "q" req.query
  let esz := (vReqFloat "size" req.query).bind
    (vRatRange ["query", "size"] (11 / 10 : Rat) "1.1" (21 / 2 : Rat) "10.5")
  (match eid, eq, esz with
   | Except.ok n, Except.ok q, Except.ok sz => Response.ok (read_items_path_v2 n q sz)
   | _, _, _ => Response.validationError (errsOf eid ++ errsOf eq ++ errsOf esz), st)

/-- `PUT /body_items/{item_id}`: optional single body parameter; an
absent body is `None`, otherwise the payload itself is the item. -/
def actBodyItems : Action := fun st pp req =>
  let eid := (vPathInt "item_id" pp).bind
    (vIntRange ["path", "item_id"] (some (0, "0")) (some (1000, "1000")))
  let eq := vOptStr "q" req.query
  let eit : V (Option BodyItem) :=
    match req.body with
    | none => Except.ok none
    | some fields => (vBodyItemFields ["body"] fields).map some
  (match eid, eq, eit with
   | Except.ok n, Except.ok q, Except.ok it => Response.ok (update_item n q it)
   | _, _, _ => Response.validationError (errsOf eid ++ errsOf eq ++ errsOf eit), st)

/-- `PUT /body_items_v1/{item_id}`: two body parameters, each nested
under its own name in the body payload. -/
def actBodyItemsV1 : Action := fun st pp req =>
  let eid := vPathInt "item_id" pp
  let eit := vNested "item" req.body (vBodyItemVal ["body", "item"])
  let eu := vNested "user" req.body (vBodyUserVal ["body", "user"])
  (match eid, eit, eu with
   | Except.ok n, Except.ok it, Except.ok u => Response.ok (update_item_v1 n it u)
   | _, _, _ => Response.validationError (errsOf eid ++ errsOf eit ++ errsOf eu), st)

/-- `PUT /body_items_v2/{item_id}`: adds the singular body value
importance. -/
def actBodyItemsV2 : Action := fun st pp req =>
  let eid := vPathInt "item_id" pp
  let eit := vNested "item" req.body (vBodyItemVal ["body", "item"])
  let eu := vNested "user" req.body (vBodyUserVal ["body", "user"])
  let eimp := vNestedInt "importance" req.body
  (match eid, eit, eu, eimp with
   | Except.ok n, Except.ok it, Except.ok u, Except.ok imp =>
     Response.ok (update_item_v2 n it u imp)
   | _, _, _, _ =>
     Response.validationError (errsOf eid ++ errsOf eit ++ errsOf eu ++ errsOf eimp), st)

/-- `PUT /body_items_v3/{item_id}`: importance constrained gt 0 and an
optional query q. -/
def actBodyItemsV3 : Action := fun st pp req =>
  let eid := vPathInt "item_id" pp
  let eq := vOptStr "q" req.query
  let eit := vNested "item" req.body (vBodyItemVal ["body", "item"])
  let eu := vNested "user" req.body (vBodyUserVal ["body", "user"])
  let eimp := (vNestedInt "importance" req.body).bind
    (vIntGt ["body", "importance"] 0)
  (match eid, eq, eit, eu, eimp with
   | Except.ok n, Except.ok q, Except.ok it, Except.ok u, Except.ok imp =>
     Response.ok (update_item_v3 n it u imp q)
   | _, _, _, _, _ =>
     Response.validationError
       (errsOf eid ++ errsOf eq ++ errsOf eit ++ errsOf eu ++ errsOf eimp), st)

/-- `PUT /body_items_v4/{item_id}`: a single body parameter declared
with embed, so the payload must nest the item under the key item. -/
def actBodyItemsV4 : Action := fun st pp req =>
  let eid := vPathInt "item_id" pp
  let eit := vNested "item" req.body (vBodyItemVal ["body", "item"])
  (match eid, eit with
   | Except.ok n, Except.ok it => Response.ok (update_item_v4 n it)
   | _, _ => Response.validationError (errsOf eid ++ errsOf eit), st)

/-! ## Route table and dispatcher -/

/-- One segment of a route path pattern: a literal, a single-segment
placeholder (matching any one nonempty segment), or a multi-segment
path capture. -/
inductive Seg where
  | lit (s : String) : Seg
  | param (name : String) : Seg
  | rest (name : String) : Seg

/-- Match a path pattern against the segments of a request path,
producing the placeholder bindings. -/
def matchPath : List Seg → List String → Option (List (String × String))
  | [], [] => some []
  | [Seg.rest n], xs => some [(n, String.intercalate "/" xs)]
  | Seg.lit s :: ps, x :: xs => if x = s then matchPath ps xs else none
  | Seg.param n :: ps, x :: xs =>
      if x = "" then none else (matchPath ps xs).map (fun b => (n, x) :: b)
  | _, _ => none

/-- A registered route: method, path pattern, action. -/
structure Route where
  method : String
  pattern : List Seg
  action : Action

/-- The route table of `app/main.py`, in registration order (decorators
register bottom-up, so `/hello_world` precedes `/`). -/
def routes : List Route :=
  [⟨"GET", [Seg.lit "hello_world"], actHello⟩,
   ⟨"GET", [Seg.lit ""], actHello⟩,
   ⟨"GET", [Seg.lit "items", Seg.lit ""], actItemsList⟩,
   ⟨"GET", [Seg.lit "items", Seg.param "item_id"], actReadItem⟩,
   ⟨"GET", [Seg.lit "users", Seg.lit "me"], actUserMe⟩,
   ⟨"GET", [Seg.lit "users", Seg.param "user_id"], actUser⟩,
   ⟨"GET", [Seg.lit "models", Seg.param "model_name"], actGetModel⟩,
   ⟨"GET", [Seg.lit "files", Seg.rest "file_path"], actReadFile⟩,
   ⟨"GET", [Seg.lit "users_multi", Seg.param "user_id", Seg.lit "items",
            Seg.param "item_id"], actUserItem⟩,
   ⟨"POST", [Seg.lit "items", Seg.lit ""], actCreateItem⟩,
   ⟨"PUT", [Seg.lit "items", Seg.param "item_id"], actCreateItemPut⟩,
   ⟨"GET", [Seg.lit "itemsv2", Seg.lit ""], actItemsV2⟩,
   ⟨"GET", [Seg.lit "itemsv3", Seg.lit ""], actItemsV3⟩,
   ⟨"GET", [Seg.lit "itemsv4", Seg.lit ""], actItemsV4⟩,
   ⟨"GET", [Seg.lit "itemsv5", Seg.lit ""], actItemsV5⟩,
   ⟨"GET", [Seg.lit "itemsv6", Seg.lit ""], actItemsV6⟩,
   ⟨"GET", [Seg.lit "itemsv7", Seg.lit ""], actItemsV7⟩,
   ⟨"GET", [Seg.lit "path_items", Seg.param "item_id"], actPathItems⟩,
   ⟨"GET", [Seg.lit "path_items_v1", Seg.param "item_id"], actPathItemsV1⟩,
   ⟨"GET", [Seg.lit "path_items_v2", Seg.param "item_id"], actPathItemsV2⟩,
   ⟨"PUT", [Seg.lit "body_items", Seg.param "item_id"], actBodyItems⟩,
   ⟨"PUT", [Seg.lit "body_items_v1", Seg.param "item_id"], actBodyItemsV1⟩,
   ⟨"PUT", [Seg.lit "body_items_v2", Seg.param "item_id"], actBodyItemsV2⟩,
   ⟨"PUT", [Seg.lit "body_items_v3", Seg.param "item_id"], actBodyItemsV3⟩,
   ⟨"PUT", [Seg.lit "body_items_v4", Seg.param "item_id"], actBodyItemsV4⟩]

/-- First-match route lookup: strictly registration order among the
routes whose method and path pattern match. -/
def findRoute : List Route → String → List String →
    Option (Route × List (String × String))
  | [], _, _ => none
  | r :: rs, m, p =>
    if r.method = m then
      match matchPath r.pattern p with
      | some b => some (r, b)
      | none => findRoute rs m p
    else findRoute rs m p

/-- Handle one request: dispatch to the first matching route, or 404
when no route matches the method and path. -/
def handle (st : AppState) (req : Request) : Response × AppState :=
  match findRoute routes req.method req.path with
  | none => (Response.notFound, st)
  | some (r, b) => r.action st b req

/-- State after serving a sequence of requests. -/
def execAll (st : AppState) (reqs : List Request) : AppState :=
  reqs.foldl (fun s r => (handle s r).2) st

/-- Response to a request served after a given request history starting
from the initial state. -/
def respondAfter (pre : List Request) (r : Request) : Response :=
  (handle (execAll initState pre) r).1

/-! ## Helper lemmas -/

/-- A route returned by first-match lookup is a registered route. -/
lemma findRoute_mem :
    ∀ (l : List Route) (m : String) (p : List String) (r : Route)
      (b : List (String × String)),
      findRoute l m p = some (r, b) → r ∈ l := by
  intro l
  induction l with
  | nil => intro m p r b h; simp [findRoute] at h
  | cons hd tl ih =>
    intro m p r b h
    unfold findRoute at h
    by_cases hm : hd.method = m
    · simp only [hm, if_true] at h
      cases hmp : matchPath hd.pattern p with
      | none =>
        rw [hmp] at h
        exact List.mem_cons_of_mem _ (ih m p r b h)
      | some b' =>
        rw [hmp] at h
        injection h with h'
        injection h' with h1 h2
        exact h1 ▸ List.mem_cons_self _ _
    · simp only [hm, if_false] at h
      exact List.mem_cons_of_mem _ (ih m p r b h)

/-- Every registered action returns the state it was given: no handler
in `app/main.py` writes to `fake_items_db` or any other shared state. -/
lemma action_snd (r : Route) (hr : r ∈ routes) (st : AppState)
    (b : List (String × String)) (req : Request) :
    (r.action st b req).2 = st := by
  simp only [routes, List.mem_cons, List.not_mem_nil, or_false] at hr
  rcases hr with rfl | rfl | rfl | rfl | rfl | rfl | rfl | rfl | rfl | rfl | rfl |
    rfl | rfl | rfl | rfl | rfl | rfl | rfl | rfl | rfl | rfl | rfl | rfl | rfl | rfl <;> rfl

/-- Serving any request leaves the application state unchanged. -/
lemma handle_snd (st : AppState) (req : Request) : (handle st req).2 = st := by
  unfold handle
  cases h : findRoute routes req.method req.path with
  | none => rfl
  | some rb =>
    obtain ⟨r, b⟩ := rb
    exact action_snd r (findRoute_mem _ _ _ _ _ h) st b req

/-- Serving any sequence of requests leaves the state unchanged. -/
lemma execAll_const (reqs : List Request) (st : AppState) : execAll st reqs = st := by
  induction reqs generalizing st with
  | nil => rfl
  | cons r rs ih =>
    show execAll (handle st r).2 rs = st
    rw [handle_snd, ih]

/-- The empty string does not coerce to an integer. -/
lemma pyInt_empty : pyInt "" = none := rfl

/-- The query value "true" coerces to the boolean true. -/
lemma pyBool_true : pyBool "true" = some true := by decide

/-! ## Claims -/

/-- C1: a GET request to the exact path /users/me is answered by the
literal route's handler `read_user_me`, yielding the fixed object with
user_id "the current user" — even though the variable pattern
/users/\x7buser_id\x7d also matches the path, first-match-wins
dispatch picks the literal route because it is registered first. -/
theorem users_me_literal_route_wins :
    handle initState ⟨"GET", ["users", "me"], [], none⟩
      = (Response.ok [("user_id", JValue.prim (Prim.s "the current user"))], initState)
    ∧ matchPath [Seg.lit "users", Seg.param "user_id"] ["users", "me"]
      = some [("user_id", "me")] :=
  ⟨rfl, rfl⟩

/-- C2: GET /models/alexnet answers with message "Deep Learning FTW!",
/models/lenet with "LeCNN all the images", /models/resnet with
"Have some residuals", and every other (nonempty) path value fails the
enumeration and yields a 422 validation error without invoking the
handler. -/
theorem get_model_enumeration :
    (handle initState ⟨"GET", ["models", "alexnet"], [], none⟩).1
      = Response.ok [("model_name", JValue.prim (Prim.s "alexnet")),
                     ("message", JValue.prim (Prim.s "Deep Learning FTW!"))]
    ∧ (handle initState ⟨"GET", ["models", "lenet"], [], none⟩).1
      = Response.ok [("model_name", JValue.prim (Prim.s "lenet")),
                     ("message", JValue.prim (Prim.s "LeCNN all the images"))]
    ∧ (handle initState ⟨"GET", ["models", "resnet"], [], none⟩).1
      = Response.ok [("model_name", JValue.prim (Prim.s "resnet")),
                     ("message", JValue.prim (Prim.s "Have some residuals"))]
    ∧ ∀ s : String, s ≠ "" → s ≠ "alexnet" → s ≠ "resnet" → s ≠ "lenet" →
        (handle initState ⟨"GET", ["models", s], [], none⟩).1
          = Response.validationError
              [⟨["path", "model_name"], "value is not a valid enumeration member"⟩] := by
  refine ⟨rfl, rfl, rfl, ?_⟩
  intro s h0 h1 h2 h3
  simp [handle, findRoute, routes, matchPath, h0, h1, h2, h3, actGetModel, vModelName]

/-- Witness for C2 at the out-of-enumeration value "squeezenet". -/
theorem get_model_enumeration_witness :
    (handle initState ⟨"GET", ["models", "squeezenet"], [], none⟩).1
      = Response.validationError
          [⟨["path", "model_name"], "value is not a valid enumeration member"⟩] :=
  get_model_enumeration.2.2.2 "squeezenet" (by decide) (by decide) (by decide) (by decide)

/-- C3: on GET /path_items_v1 with q supplied as "x", every item_id
that coerces to an integer outside [1, 1000] is rejected with a 422
naming the path parameter (so the handler is not invoked), while
item_id 5 with q "x" answers exactly with item_id 5 and q "x". -/
theorem path_items_v1_validation :
    (∀ (s : String) (n : Int), pyInt s = some n → n < 1 ∨ 1000 < n →
      (handle initState ⟨"GET", ["path_items_v1", s], [("q", "x")], none⟩).1
        = Response.validationError
            [⟨["path", "item_id"],
              if n < 1 then "ensure this value is greater than or equal to 1"
              else "ensure this value is less than or equal to 1000"⟩])
    ∧ handle initState ⟨"GET", ["path_items_v1", "5"], [("q", "x")], none⟩
      = (Response.ok [("item_id", JValue.prim (Prim.i 5)),
                      ("q", JValue.prim (Prim.s "x"))], initState) := by
  refine ⟨?_, by decide⟩
  intro s n hs hn
  have hne : s ≠ "" := by
    intro he
    rw [he, pyInt_empty] at hs
    exact Option.noConfusion hs
  rcases hn with h | h
  · simp [handle, findRoute, routes, matchPath, hne, actPathItemsV1, vPathInt, hs,
      Except.bind, vIntRange, vReqStr, qGet, qAll, errsOf, h]
  · have h' : ¬ n < 1 := by omega
    simp [handle, findRoute, routes, matchPath, hne, actPathItemsV1, vPathInt, hs,
      Except.bind, vIntRange, vReqStr, qGet, qAll, errsOf, h, h']

/-- Witness for C3 at item_id "0" (coercing to 0, below the lower
bound 1). -/
theorem path_items_v1_validation_witness :
    (handle initState ⟨"GET", ["path_items_v1", "0"], [("q", "x")], none⟩).1
      = Response.validationError
          [⟨["path", "item_id"], "ensure this value is greater than or equal to 1"⟩] := by
  have h := path_items_v1_validation.1 "0" 0 (by decide) (by decide)
  simpa using h

/-- C4: PUT /body_items_v4/3 declares its single body parameter with
embed, so the payload must nest the item under the key "item": the
nested payload with name "A" and price 1.0 answers with item_id 3 and
the full item whose omitted optionals description and tax resolve to
null, while the same fields sent unnested are rejected with a 422
saying the embedded parameter is required. -/
theorem body_items_v4_embed :
    handle initState ⟨"PUT", ["body_items_v4", "3"], [],
        some [("item", JValue.obj [("name", Prim.s "A"), ("price", Prim.f 1)])]⟩
      = (Response.ok [("item_id", JValue.prim (Prim.i 3)),
          ("item", JValue.obj [("name", Prim.s "A"), ("description", Prim.null),
                               ("price", Prim.f 1), ("tax", Prim.null)])], initState)
    ∧ handle initState ⟨"PUT", ["body_items_v4", "3"], [],
        some [("name", JValue.prim (Prim.s "A")), ("price", JValue.prim (Prim.f 1))]⟩
      = (Response.validationError [⟨["body", "item"], "field required"⟩], initState) :=
  ⟨by decide, by decide⟩

/-- Query pairs contributed by an optional q value. -/
def qOptPairs : Option String → List (String × String)
  | some v => [("q", v)]
  | none => []

/-- C5: on GET /items/ with any path item_id, with short supplied as
true the description field of the response is "short description", and
with short absent (defaulting to false) it is the long description —
regardless of the optional q parameter. -/
theorem read_item_short_flag :
    ∀ (item_id : String) (q : Option String), item_id ≠ "" →
      ((handle initState
          ⟨"GET", ["items", item_id], qOptPairs q ++ [("short", "true")], none⟩).1
        = Response.ok (read_item item_id q true)
      ∧ (read_item item_id q true).lookup "description"
        = some (JValue.prim (Prim.s "short description")))
    ∧ ((handle initState ⟨"GET", ["items", item_id], qOptPairs q, none⟩).1
        = Response.ok (read_item item_id q false)
      ∧ (read_item item_id q false).lookup "description"
        = some (JValue.prim
            (Prim.s "This is an amazing item that has a long description"))) := by
  intro item_id q h
  have hlook : ∀ b : Bool, (read_item item_id q b).lookup "description"
      = some (JValue.prim (Prim.s (if b then "short description"
          else "This is an amazing item that has a long description"))) := by
    intro b
    cases q with
    | none => cases b <;> simp [read_item, qField, List.lookup]
    | some v =>
      by_cases hv : v = "" <;> cases b <;>
        simp [read_item, qField, hv, List.lookup]
  refine ⟨⟨?_, by simpa using hlook true⟩, ⟨?_, by simpa using hlook false⟩⟩
  · cases q with
    | none =>
      simp [handle, findRoute, routes, matchPath, h, actReadItem, vOptStr,
        vBoolDefault, qGet, qAll, qOptPairs, pyBool_true, errsOf]
    | some v =>
      simp [handle, findRoute, routes, matchPath, h, actReadItem, vOptStr,
        vBoolDefault, qGet, qAll, qOptPairs, pyBool_true, errsOf]
  · cases q with
    | none =>
      simp [handle, findRoute, routes, matchPath, h, actReadItem, vOptStr,
        vBoolDefault, qGet, qAll, qOptPairs, errsOf]
    | some v =>
      simp [handle, findRoute, routes, matchPath, h, actReadItem, vOptStr,
        vBoolDefault, qGet, qAll, qOptPairs, errsOf]

/-- Witness for C5 at item_id "plumbus" with q absent. -/
theorem read_item_short_flag_witness :
    ((handle initState
        ⟨"GET", ["items", "plumbus"], qOptPairs none ++ [("short", "true")], none⟩).1
      = Response.ok (read_item "plumbus" none true)
    ∧ (read_item "plumbus" none true).lookup "description"
      = some (JValue.prim (Prim.s "short description")))
    ∧ ((handle initState ⟨"GET", ["items", "plumbus"], qOptPairs none, none⟩).1
      = Response.ok (read_item "plumbus" none false)
    ∧ (read_item "plumbus" none false).lookup "description"
      = some (JValue.prim
          (Prim.s "This is an amazing item that has a long description"))) :=
  read_item_short_flag "plumbus" none (by decide)

/-- Validating the serialization of a `BodyItem` recovers it. -/
lemma vBodyItemFields_roundtrip (it : BodyItem) :
    vBodyItemFields ["body"] (objAsTop it.toJObj) = Except.ok it := by
  obtain ⟨n, d, p, t⟩ := it
  cases d <;> cases t <;>
    simp [vBodyItemFields, BodyItem.toJObj, objAsTop, optS, optF, vFieldStr,
      vFieldOptStr, vFieldFloat, vFieldOptFloat, primToFloat, List.lookup]

/-- C6 counterexample: POST /items/ with name "A", price 1.0 and
tax 0.5 answers with a price_with_tax field of 1.5 — a computed field
that is not among the request body fields, so not every response field
is an echoed input. -/
theorem echo_only_counterexample :
    (handle initState ⟨"POST", ["items", ""], [],
        some [("name", JValue.prim (Prim.s "A")), ("price", JValue.prim (Prim.f 1)),
              ("tax", JValue.prim (Prim.f (1 / 2)))]⟩).1
      = Response.ok
          [("name", JValue.prim (Prim.s "A")), ("description", JValue.prim Prim.null),
           ("price", JValue.prim (Prim.f 1)), ("tax", JValue.prim (Prim.f (1 / 2))),
           ("price_with_tax", JValue.prim (Prim.f (3 / 2)))]
    ∧ ([("name", JValue.prim (Prim.s "A")), ("price", JValue.prim (Prim.f 1)),
        ("tax", JValue.prim (Prim.f (1 / 2)))].lookup "price_with_tax"
        = (none : Option JValue)) := by
  constructor
  · simp [handle, findRoute, routes, matchPath, actCreateItem, vWholeBodyItem,
      vBodyItemFields, vFieldStr, vFieldOptStr, vFieldFloat, vFieldOptFloat,
      primToFloat, create_item, BodyItem.toJObj, objAsTop, optS, optF, errsOf,
      List.lookup]
    norm_num
  · decide

/-- C6 amended: for every successful POST /items/ request (the route the
claim cites), every field of the response is a validated body field
echoed back except the single computed field price_with_tax, equal to
price plus tax and present exactly when tax is supplied and nonzero:
posting any serialized item echoes `create_item` of that item, which is
the echoed field set alone when tax is absent or zero, and the echoed
field set plus price_with_tax otherwise. -/
theorem create_item_echo_amended :
    ∀ it : BodyItem,
      (handle initState ⟨"POST", ["items", ""], [], some (objAsTop it.toJObj)⟩).1
        = Response.ok (create_item it)
      ∧ (it.tax = none ∨ it.tax = some 0 → create_item it = objAsTop it.toJObj)
      ∧ (∀ t : Rat, it.tax = some t → t ≠ 0 →
          create_item it = objAsTop it.toJObj
            ++ [("price_with_tax", JValue.prim (Prim.f (it.price + t)))]) := by
  intro it
  refine ⟨?_, ?_, ?_⟩
  · simp [handle, findRoute, routes, matchPath, actCreateItem, vWholeBodyItem,
      vBodyItemFields_roundtrip]
  · intro h
    rcases h with h | h <;> simp [create_item, h]
  · intro t ht hnz
    simp [create_item, ht, hnz]

/-- Witness for the amended C6 at the item with name "A", price 1 and
tax one half. -/
theorem create_item_echo_amended_witness :
    (handle initState ⟨"POST", ["items", ""], [],
        some (objAsTop (BodyItem.mk "A" none 1 (some (1 / 2))).toJObj)⟩).1
      = Response.ok (create_item (BodyItem.mk "A" none 1 (some (1 / 2))))
    ∧ create_item (BodyItem.mk "A" none 1 (some (1 / 2)))
      = objAsTop (BodyItem.mk "A" none 1 (some (1 / 2))).toJObj
        ++ [("price_with_tax", JValue.prim (Prim.f ((1 : Rat) + 1 / 2)))] := by
  have h := create_item_echo_amended ⟨"A", none, 1, some (1 / 2)⟩
  exact ⟨h.1, h.2.2 (1 / 2) rfl (by norm_num)⟩

/-- C7: on GET /path_items_v2 every declared parameter is validated
before the handler could run, and when several fields fail the 422
detail lists every offending field, not only the first: for every
item_id that coerces to an integer outside [0, 1000] and every size
that coerces to a float outside [1.1, 10.5], the request with q absent
is rejected (the handler is never invoked) with exactly the three
errors for the path item_id, the missing required query q, and the
query size, in declaration order. -/
theorem path_items_v2_aggregated_errors :
    ∀ (sid : String) (n : Int) (ssz : String) (x : Rat),
      pyInt sid = some n → n < 0 ∨ 1000 < n →
      pyFloat ssz = some x → x < 11 / 10 ∨ 21 / 2 < x →
      handle initState ⟨"GET", ["path_items_v2", sid], [("size", ssz)], none⟩
        = (Response.validationError
            [⟨["path", "item_id"],
              if n < 0 then "ensure this value is greater than or equal to 0"
              else "ensure this value is less than or equal to 1000"⟩,
             ⟨["query", "q"], "field required"⟩,
             ⟨["query", "size"],
              if x < 11 / 10 then "ensure this value is greater than or equal to 1.1"
              else "ensure this value is less than or equal to 10.5"⟩],
           initState) := by
  intro sid n ssz x hs hn hsz hx
  have hne : sid ≠ "" := by
    intro he
    rw [he, pyInt_empty] at hs
    exact Option.noConfusion hs
  rcases hn with h1 | h1 <;> rcases hx with h2 | h2
  · simp [handle, findRoute, routes, matchPath, hne, actPathItemsV2, vPathInt, hs,
      Except.bind, vIntRange, vReqStr, vReqFloat, hsz, vRatRange, qGet, qAll,
      errsOf, h1, h2]
  · have h2' : ¬ x < 11 / 10 := by
      have hb : (11 / 10 : Rat) ≤ 21 / 2 := by norm_num
      linarith
    simp [handle, findRoute, routes, matchPath, hne, actPathItemsV2, vPathInt, hs,
      Except.bind, vIntRange, vReqStr, vReqFloat, hsz, vRatRange, qGet, qAll,
      errsOf, h1, h2, h2']
  · have h1' : ¬ n < 0 := by omega
    simp [handle, findRoute, routes, matchPath, hne, actPathItemsV2, vPathInt, hs,
      Except.bind, vIntRange, vReqStr, vReqFloat, hsz, vRatRange, qGet, qAll,
      errsOf, h1, h1', h2]
  · have h1' : ¬ n < 0 := by omega
    have h2' : ¬ x < 11 / 10 := by
      have hb : (11 / 10 : Rat) ≤ 21 / 2 := by norm_num
      linarith
    simp [handle, findRoute, routes, matchPath, hne, actPathItemsV2, vPathInt, hs,
      Except.bind, vIntRange, vReqStr, vReqFloat, hsz, vRatRange, qGet, qAll,
      errsOf, h1, h1', h2, h2']

/-- Witness for C7 at item_id "2000" (above the upper bound) with q
absent and size "0.5" (below the lower bound): all three offending
fields are reported. -/
theorem path_items_v2_aggregated_errors_witness :
    handle initState ⟨"GET", ["path_items_v2", "2000"], [("size", "0.5")], none⟩
      = (Response.validationError
          [⟨["path", "item_id"], "ensure this value is less than or equal to 1000"⟩,
           ⟨["query", "q"], "field required"⟩,
           ⟨["query", "size"], "ensure this value is greater than or equal to 1.1"⟩],
         initState) := by
  have h := path_items_v2_aggregated_errors "2000" 2000 "0.5" (1 / 2)
    (by decide) (by norm_num)
    (by simp [pyFloat, readDecimal, allDigits, digitsVal, List.splitOn, List.splitOnP,
          List.splitOnP.go]
        norm_num)
    (by norm_num)
  rw [if_neg (by norm_num : ¬ (2000 : Int) < 0),
    if_pos (by norm_num : (1 / 2 : Rat) < 11 / 10)] at h
  exact h

/-- C8: every GET handler is deterministic — the response to a GET
request is the same no matter which other exercised requests were
served before it, because no request mutates state observable later. -/
theorem get_requests_deterministic :
    ∀ (pre₁ pre₂ : List Request) (r : Request), r.method = "GET" →
      respondAfter pre₁ r = respondAfter pre₂ r := by
  intro pre₁ pre₂ r _
  unfold respondAfter
  rw [execAll_const, execAll_const]

/-- Witness for C8: GET /users/me answers the same on a fresh history
and after an interleaved GET /items/x. -/
theorem get_requests_deterministic_witness :
    respondAfter [] ⟨"GET", ["users", "me"], [], none⟩
      = respondAfter [⟨"GET", ["items", "x"], [], none⟩]
          ⟨"GET", ["users", "me"], [], none⟩ :=
  get_requests_deterministic [] [⟨"GET", ["items", "x"], [], none⟩]
    ⟨"GET", ["users", "me"], [], none⟩ rfl

/-- C9: no handler writes to `fake_items_db` or any other shared state:
serving any request returns the state unchanged, and after any request
from the initial state the database still holds its initial four
elements. -/
theorem no_shared_state_mutation :
    (∀ (st : AppState) (r : Request), (handle st r).2 = st)
    ∧ ∀ r : Request, ((handle initState r).2).fake_items_db
        = [[("item_name", Prim.s "Foo1")], [("item_name", Prim.s "Bar2")],
           [("item_name", Prim.s "Baz3")], [("item_name", Prim.s "Hay4")]] := by
  refine ⟨handle_snd, ?_⟩
  intro r
  rw [handle_snd]
  rfl

/-- C10: on GET /items/ and GET /users_multi/7/items/, a q query
parameter supplied as the empty string produces exactly the response of
a request without q — the handlers test q for truthiness, not
presence, so the q key is omitted. -/
theorem empty_q_omitted :
    ∀ item_id : String, item_id ≠ "" →
      handle initState ⟨"GET", ["items", item_id], [("q", "")], none⟩
        = handle initState ⟨"GET", ["items", item_id], [], none⟩
      ∧ handle initState
          ⟨"GET", ["users_multi", "7", "items", item_id], [("q", "")], none⟩
        = handle initState
            ⟨"GET", ["users_multi", "7", "items", item_id], [], none⟩ := by
  intro item_id h
  constructor
  · simp [handle, findRoute, routes, matchPath, h, actReadItem, vOptStr, vBoolDefault,
      qGet, qAll, errsOf, read_item, qField]
  · simp [handle, findRoute, routes, matchPath, h, actUserItem, vPathInt, vOptStr,
      vBoolDefault, qGet, qAll, errsOf, read_user_item, qField,
      show pyInt "7" = some 7 from by decide]

/-- Witness for C10 at item_id "florp". -/
theorem empty_q_omitted_witness :
    handle initState ⟨"GET", ["items", "florp"], [("q", "")], none⟩
      = handle initState ⟨"GET", ["items", "florp"], [], none⟩
    ∧ handle initState ⟨"GET", ["users_multi", "7", "items", "florp"], [("q", "")], none⟩
      = handle initState ⟨"GET", ["users_multi", "7", "items", "florp"], [], none⟩ :=
  empty_q_omitted "florp" (by decide)

end FastApiTut
